import Mathlib

/-!
Verification of the CashData billing engine specification against the
repository sources.  The frontend (React/TypeScript) is embedded from the
files under src; the backend components that are documented in the README
and the specification but whose Python sources are not part of the fileset
are modelled from the specification text, each such definition carrying a
doc comment that says so.
-/

namespace CashData

/-! ## InstallmentSplitter -/

/-- Modelled from the spec: the backend InstallmentSplitter (backend code not
in the fileset; documented in README section Installment Generation and spec
section 4.2).  Working in integer minor units, base is the sign-aware integer
quotient of the total by the installment count and the whole remainder is
added to installment 1. -/
def split (t : Int) (n : Nat) : List Int :=
  let base : Int := t.tdiv n
  let rem : Int := t - base * n
  (base + rem) :: List.replicate (n - 1) base

/-! ## PurchasesPage installment rendering (src/unnamed/part_006) -/

/-- From PurchasesPage, expandable purchase details: each rendered
installment amount is Number(total_amount) / installments_count shown with
toFixed(2); modelled exactly over the rationals, the value shown for one
installment expressed in minor units (cents). -/
def displayedInstallmentCents (total_amount : ℚ) (installments_count : Nat) : ℤ :=
  round (100 * (total_amount / installments_count))

/-- The sum, in cents, of the amounts the page presents for all
installments of the purchase. -/
def displayedInstallmentsTotalCents (total_amount : ℚ) (installments_count : Nat) : ℤ :=
  installments_count * displayedInstallmentCents total_amount installments_count

/-! ## PeriodResolver -/

/-- A calendar date as (year, month, day). -/
structure PDate where
  year : Nat
  month : Nat
  day : Nat
deriving DecidableEq, Repr

/-- Rolling a (year, month) pair forward one calendar month, December
rolling into January of the next year. -/
def nextMonth (ym : Nat × Nat) : Nat × Nat :=
  if ym.2 = 12 then (ym.1 + 1, 1) else (ym.1, ym.2 + 1)

/-- Modelled from the spec: the backend PeriodResolver (backend code not in
the fileset; documented in README section Billing Period Calculation and
spec section 4.1).  A purchase on or before the billing close day belongs
to the current cycle, otherwise to the next cycle. -/
def resolveFirstPeriod (d : PDate) (billingCloseDay : Nat) : Nat × Nat :=
  if d.day ≤ billingCloseDay then (d.year, d.month)
  else nextMonth (d.year, d.month)

/-! ## ReassignmentService: effective statement assignment -/

/-- The assignment-relevant state of one installment row: the originally
computed automatic statement assignment and the manual override column. -/
structure InstallmentRecord where
  computedStatementId : Nat
  manuallyAssignedStatementId : Option Nat
deriving DecidableEq, Repr

/-- Modelled from the spec: the effective assignment a read returns is the
manual override when set, else the computed one (spec section 4.5; the
backend read path is not in the fileset, the frontend writes the
manually_assigned_statement_id field from InstallmentEditor.tsx). -/
def effectiveStatementId (r : InstallmentRecord) : Nat :=
  r.manuallyAssignedStatementId.getD r.computedStatementId

/-- Modelled from the spec: a PATCH of the manual assignment field only
touches the manually_assigned_statement_id column, never the computed
assignment. -/
def setManualAssignment (r : InstallmentRecord) (v : Option Nat) : InstallmentRecord :=
  ⟨r.computedStatementId, v⟩

/-! ## PurchaseLifecycleOrchestrator: cascade delete -/

/-- The rows a purchase deletion touches: purchases by id, installments as
(installment id, owning purchase id), budget-expense snapshot rows that
reference an installment or a purchase, and monthly statements by id. -/
structure Store where
  purchases : List Nat
  installments : List (Nat × Nat)
  budgetExpensesByInstallment : List (Nat × Nat)
  budgetExpensesByPurchase : List (Nat × Nat)
  statements : List Nat
deriving DecidableEq, Repr

/-- The ids of the installments owned by a purchase. -/
def installmentIdsOf (s : Store) (pid : Nat) : List Nat :=
  (s.installments.filter (fun ip => ip.2 = pid)).map (fun ip => ip.1)

/-- Modelled from the spec: delete step 1 removes the budget-expense rows
that reference an installment of the purchase (spec section 4.6; the
backend delete endpoint is not in the fileset, only its HTTP caller
PurchaseApiRepository.delete and the e2e test are). -/
def deleteStep1 (s : Store) (pid : Nat) : Store :=
  ⟨s.purchases, s.installments,
    s.budgetExpensesByInstallment.filter (fun r => ¬ r.2 ∈ installmentIdsOf s pid),
    s.budgetExpensesByPurchase, s.statements⟩

/-- Modelled from the spec: delete step 2 removes the budget-expense rows
that reference the purchase directly. -/
def deleteStep2 (s : Store) (pid : Nat) : Store :=
  ⟨s.purchases, s.installments, s.budgetExpensesByInstallment,
    s.budgetExpensesByPurchase.filter (fun r => ¬ r.2 = pid), s.statements⟩

/-- Modelled from the spec: delete step 3 removes the installments of the
purchase. -/
def deleteStep3 (s : Store) (pid : Nat) : Store :=
  ⟨s.purchases, s.installments.filter (fun ip => ¬ ip.2 = pid),
    s.budgetExpensesByInstallment, s.budgetExpensesByPurchase, s.statements⟩

/-- Modelled from the spec: delete step 4 removes the purchase row itself;
statements are not touched by any step. -/
def deleteStep4 (s : Store) (pid : Nat) : Store :=
  ⟨s.purchases.filter (fun p => ¬ p = pid), s.installments,
    s.budgetExpensesByInstallment, s.budgetExpensesByPurchase, s.statements⟩

/-- Modelled from the spec: the full ordered cascade delete of a purchase
(spec section 4.6). -/
def deletePurchase (s : Store) (pid : Nat) : Store :=
  deleteStep4 (deleteStep3 (deleteStep2 (deleteStep1 s pid) pid) pid) pid

/-- Referential integrity of the store: every budget-expense row points at
an existing installment or purchase, every installment points at an
existing purchase. -/
def fkConsistent (s : Store) : Prop :=
  (∀ r ∈ s.budgetExpensesByInstallment, ∃ ip ∈ s.installments, ip.1 = r.2) ∧
  (∀ r ∈ s.budgetExpensesByPurchase, r.2 ∈ s.purchases) ∧
  (∀ ip ∈ s.installments, ip.2 ∈ s.purchases)

instance (s : Store) : Decidable (fkConsistent s) := by
  unfold fkConsistent
  infer_instance

/-! ## Purchase creation guards (frontend) -/

/-- The request body fields relevant to the claims about purchase
creation. -/
structure PurchasePayload where
  total_amount : ℚ
  installments_count : Int
deriving DecidableEq, Repr

/-- From PurchasesPage.handleSubmit (src/unnamed/part_006): the required
fields guard, the installment count guard for credit cards, the zero
amount guard, and the forcing of installments_count to 1 for payment
methods that are not credit cards.  A result of none means the submission
was rejected with an alert and no create request was issued; the amount is
none when the total_amount field is empty. -/
def purchasesPageSubmit (pmPresent catPresent descPresent : Bool)
    (isCreditCard : Bool) (installments : Int) (amount : Option ℚ) :
    Option PurchasePayload :=
  if ¬ (pmPresent = true ∧ catPresent = true ∧ descPresent = true ∧ amount.isSome = true)
    then none
  else if isCreditCard = true ∧ installments < 1 then none
  else
    match amount with
    | none => none
    | some a =>
      if a = 0 then none
      else some ⟨a, if isCreditCard then installments else 1⟩

/-- From QuickPurchaseModal.handleSubmit: rejects when no active user, no
payment method, or the amount is not strictly positive; otherwise creates
the purchase with installments_count 1.  A result of none means no create
request was issued. -/
def quickPurchaseSubmit (hasActiveUser : Bool) (paymentMethodId : Option Nat)
    (amount : ℚ) : Option PurchasePayload :=
  if ¬ hasActiveUser = true then none
  else if paymentMethodId.isNone = true then none
  else if amount ≤ 0 then none
  else some ⟨amount, 1⟩

/-! ## InstallmentEditor.handleSave (frontend) -/

/-- A raw value of the statement-selector field as JavaScript sees it:
undefined, null, the empty string, or a number. -/
inductive RawId where
  | undef
  | null
  | emptyStr
  | num (n : Int)
deriving DecidableEq, Repr

/-- From InstallmentEditor.tsx normalizeStatementId: undefined, null and
the empty string are all treated as null, anything else as a number. -/
def normalizeStatementId : RawId → Option Int
  | RawId.num n => some n
  | _ => none

/-- The PATCH body handleSave builds: only the changed fields are
present. -/
structure InstallmentPatch where
  amount : Option ℚ
  manually_assigned_statement_id : Option (Option Int)
deriving DecidableEq, Repr

/-- Outcome of a save click: rejected with an alert (zero or unparsable
amount), a no-op (nothing changed, no request sent), or a PATCH request
with the changed fields. -/
inductive SaveAction where
  | reject
  | noop
  | send (data : InstallmentPatch)
deriving DecidableEq, Repr

/-- From InstallmentEditor.handleSave: parse the amount (none models NaN),
reject a zero amount, diff amount and normalized statement assignment
against the original installment, send nothing when no field changed. -/
def handleSave (entryAmount : Option ℚ) (entryStmt : RawId)
    (origAmount : ℚ) (origStmt : RawId) : SaveAction :=
  match entryAmount with
  | none => SaveAction.reject
  | some a =>
    if a = 0 then SaveAction.reject
    else
      let amountField : Option ℚ := if ¬ a = origAmount then some a else none
      let ns := normalizeStatementId entryStmt
      let os := normalizeStatementId origStmt
      let stmtField : Option (Option Int) := if ¬ ns = os then some ns else none
      if amountField = none ∧ stmtField = none then SaveAction.noop
      else SaveAction.send ⟨amountField, stmtField⟩

/-- Number of update requests a save click issues. -/
def requestCount : SaveAction → Nat
  | SaveAction.send _ => 1
  | _ => 0

/-! ## Statement dropdown scoping (frontend) -/

/-- A credit card row: its own id and the id of its payment method. -/
structure CreditCard where
  id : Nat
  payment_method_id : Nat
deriving DecidableEq, Repr

/-- From EditPurchasePage.tsx (installments editor block): the credit card
whose payment_method_id equals the payment method of the purchase. -/
def findCreditCardForPurchase (cards : List CreditCard) (pmId : Nat) :
    Option CreditCard :=
  cards.find? (fun cc => cc.payment_method_id = pmId)

/-- The card id EditPurchasePage hands to InstallmentEditor, which fetches
the statements dropdown from the by-card statements endpoint with it. -/
def installmentEditorByCardParam (cards : List CreditCard) (pmId : Nat) :
    Option Nat :=
  (findCreditCardForPurchase cards pmId).map (fun cc => cc.id)

/-- From EditPurchasePage.tsx line 30: the single-payment reassignment
dropdown fetches the by-card statements endpoint with the payment method
id of the purchase itself (defaulting to 0 when the purchase is not
loaded). -/
def editPurchaseByCardParam (purchasePaymentMethodId : Option Nat) : Nat :=
  purchasePaymentMethodId.getD 0

/-- Errors of the reassignment validation. -/
inductive ReassignError where
  | CrossCardReassignment
deriving DecidableEq, Repr

/-- Modelled from the spec: the backend ReassignmentService rejects a
manual reassignment whose target statement belongs to a different credit
card than the purchase of the installment (spec section 4.5; the backend
is not in the fileset). -/
def validateReassignment (installmentCardId targetStatementCardId : Nat) :
    Except ReassignError Unit :=
  if targetStatementCardId = installmentCardId then Except.ok ()
  else Except.error ReassignError.CrossCardReassignment

/-! ## findById repositories (frontend) -/

/-- Outcome of one HTTP call: a payload, or an error carrying the HTTP
status.  Modelled from the spec: the shared httpClient
(infrastructure/http/httpClient.ts) is not in the fileset; per spec
section 7 backend failures surface as structured errors, modelled as
carrying their status code. -/
inductive HttpResult (α : Type) where
  | ok (value : α)
  | err (status : Nat)
deriving DecidableEq, Repr

/-- From PurchaseApiRepository.findById (src/unnamed/part_015): a 404
error becomes a null result, any other error is re-thrown. -/
def purchaseFindById {α : Type} (r : HttpResult α) : HttpResult (Option α) :=
  match r with
  | HttpResult.ok v => HttpResult.ok (some v)
  | HttpResult.err s => if s = 404 then HttpResult.ok none else HttpResult.err s

/-- From UserApiRepository.findById (userRepository.ts): a 404 error
becomes a null result, any other error is re-thrown. -/
def userFindById {α : Type} (r : HttpResult α) : HttpResult (Option α) :=
  match r with
  | HttpResult.ok v => HttpResult.ok (some v)
  | HttpResult.err s => if s = 404 then HttpResult.ok none else HttpResult.err s

/-- From ApiMonthlyStatementRepository.findById
(monthlyStatementRepository.ts): a 404 error becomes a null result, any
other error is re-thrown; the handler reads the status off the carried
response of the error. -/
def statementFindById {α : Type} (r : HttpResult α) : HttpResult (Option α) :=
  match r with
  | HttpResult.ok v => HttpResult.ok (some v)
  | HttpResult.err s => if s = 404 then HttpResult.ok none else HttpResult.err s

/-! ## Theorems -/

lemma split_sum (t : Int) (n : Nat) (h : 1 ≤ n) : (split t n).sum = t := by
  unfold split
  simp only [List.sum_cons, List.sum_replicate, nsmul_eq_mul]
  rw [Nat.cast_sub h]
  push_cast
  ring

lemma split_length (t : Int) (n : Nat) (h : 1 ≤ n) : (split t n).length = n := by
  unfold split
  simp only [List.length_cons, List.length_replicate]
  omega

/-- C1: for a purchase of 10000 in 3 installments, the modelled backend
split does return amounts summing exactly to the total in minor units,
but the amounts the PurchasesPage detail presents are 3333.33 for every
installment, summing to 9999.99, one cent short of the total of
10000.00 - the presented amounts do not sum to total_amount exactly. -/
theorem c1_presented_amounts_lose_a_cent :
    (split 1000000 3).sum = 1000000 ∧
    displayedInstallmentCents 10000 3 = 333333 ∧
    displayedInstallmentsTotalCents 10000 3 = 999999 ∧
    ¬ (999999 : ℤ) = 100 * 10000 := by
  refine ⟨split_sum 1000000 3 (by norm_num), ?_, ?_, by norm_num⟩
  · unfold displayedInstallmentCents
    rw [round_eq]
    norm_num
  · unfold displayedInstallmentsTotalCents displayedInstallmentCents
    rw [round_eq]
    norm_num

/-- C2: the split gives every installment the sign-aware integer quotient
of the total by the count, with the whole remainder added to installment
1 - the head of the list; 10000 in 3 installments yields 3334, 3333,
3333 in installment-number order. -/
theorem c2_remainder_to_first_installment (t : Int) (n : Nat) (h : 1 ≤ n) :
    split t n = (t - ((n - 1 : Nat) : Int) * t.tdiv n) ::
      List.replicate (n - 1) (t.tdiv n) ∧
    (split t n).length = n ∧
    (split t n).sum = t ∧
    split 10000 3 = [3334, 3333, 3333] := by
  refine ⟨?_, split_length t n h, split_sum t n h, by decide⟩
  unfold split
  simp only [List.cons.injEq, and_true]
  rw [Nat.cast_sub h]
  push_cast
  ring

/-- C2 witness: the theorem instantiated at total 10000 and 3
installments. -/
theorem c2_witness :
    split 10000 3 = (10000 - ((3 - 1 : Nat) : Int) * Int.tdiv 10000 3) ::
      List.replicate (3 - 1) (Int.tdiv 10000 3) ∧
    (split 10000 3).length = 3 ∧
    (split 10000 3).sum = 10000 ∧
    split 10000 3 = [3334, 3333, 3333] :=
  c2_remainder_to_first_installment 10000 3 (by norm_num)

/-- C3: with a valid billing configuration, the first installment of a
purchase belongs to the current period exactly when the day of the
purchase is at most the billing close day, and otherwise to the period
rolled forward one month, December rolling into January of the next
year. -/
theorem c3_period_boundary (d : PDate) (c : Nat)
    (hc1 : 1 ≤ c) (hc2 : c ≤ 31) (hm1 : 1 ≤ d.month) (hm2 : d.month ≤ 12) :
    (resolveFirstPeriod d c = (d.year, d.month) ↔ d.day ≤ c) ∧
    (resolveFirstPeriod d c = nextMonth (d.year, d.month) ↔ c < d.day) := by
  have hne : ¬ nextMonth (d.year, d.month) = (d.year, d.month) := by
    unfold nextMonth
    by_cases h12 : d.month = 12 <;> simp [h12, Prod.ext_iff]
  unfold resolveFirstPeriod
  by_cases hd : d.day ≤ c
  · simp [hd]
    constructor
    · intro heq
      exact absurd heq.symm hne
    · omega
  · simp [hd]
    constructor
    · intro heq
      exact absurd heq hne
    · omega

/-- C3 witness: a purchase on December 20 with a card closing on day 15
falls past the boundary and rolls into period January of the next
year. -/
theorem c3_witness :
    nextMonth (2025, 12) = (2026, 1) ∧
    ((resolveFirstPeriod ⟨2025, 12, 20⟩ 15 = (2025, 12) ↔ (20 : Nat) ≤ 15) ∧
     (resolveFirstPeriod ⟨2025, 12, 20⟩ 15 = nextMonth (2025, 12) ↔ (15 : Nat) < 20)) :=
  ⟨by decide,
   c3_period_boundary ⟨2025, 12, 20⟩ 15 (by decide) (by decide) (by decide) (by decide)⟩

/-- C4: the effective statement assignment a read returns is the manual
override when it is set and the originally computed assignment when it is
null; setting a manual assignment and then reverting it to null yields
the originally computed assignment again. -/
theorem c4_manual_override_precedence (r : InstallmentRecord) (t : Nat) :
    effectiveStatementId (setManualAssignment r (some t)) = t ∧
    effectiveStatementId (setManualAssignment r none) = r.computedStatementId ∧
    effectiveStatementId
      (setManualAssignment (setManualAssignment r (some t)) none) =
      r.computedStatementId ∧
    (setManualAssignment (setManualAssignment r (some t)) none).computedStatementId =
      r.computedStatementId := by
  simp [effectiveStatementId, setManualAssignment]

/-- C5: starting from a referentially consistent store, deleting a
purchase keeps the store consistent after every one of the four ordered
steps, removes the purchase, its installments, and every budget-expense
row referencing either, leaves no orphan reference behind, and never
touches the monthly statements. -/
theorem c5_cascade_delete (s : Store) (pid : Nat) (h : fkConsistent s) :
    fkConsistent (deleteStep1 s pid) ∧
    fkConsistent (deleteStep2 (deleteStep1 s pid) pid) ∧
    fkConsistent (deleteStep3 (deleteStep2 (deleteStep1 s pid) pid) pid) ∧
    fkConsistent (deletePurchase s pid) ∧
    ¬ pid ∈ (deletePurchase s pid).purchases ∧
    (deletePurchase s pid).installments.filter (fun ip => ip.2 = pid) = [] ∧
    (deletePurchase s pid).budgetExpensesByPurchase.filter (fun r => r.2 = pid) = [] ∧
    (deletePurchase s pid).budgetExpensesByInstallment.filter
      (fun r => r.2 ∈ installmentIdsOf s pid) = [] ∧
    (deletePurchase s pid).statements = s.statements := by
  obtain ⟨h1, h2, h3⟩ := h
  have fk1 : fkConsistent (deleteStep1 s pid) := by
    refine ⟨?_, h2, h3⟩
    intro r hr
    rw [deleteStep1, List.mem_filter] at hr
    exact h1 r hr.1
  have fk2 : fkConsistent (deleteStep2 (deleteStep1 s pid) pid) := by
    refine ⟨fk1.1, ?_, h3⟩
    intro r hr
    rw [deleteStep2, List.mem_filter] at hr
    exact h2 r hr.1
  have fk3 : fkConsistent (deleteStep3 (deleteStep2 (deleteStep1 s pid) pid) pid) := by
    refine ⟨?_, fk2.2.1, ?_⟩
    · intro r hr
      have hr1 : r ∈ s.budgetExpensesByInstallment ∧
          ¬ r.2 ∈ installmentIdsOf s pid := by
        rw [deleteStep3] at hr
        rw [deleteStep2] at hr
        rw [deleteStep1, List.mem_filter] at hr
        refine ⟨hr.1, ?_⟩
        simpa using hr.2
      obtain ⟨ip, hip, hipEq⟩ := h1 r hr1.1
      have hipPid : ¬ ip.2 = pid := by
        intro hcontra
        apply hr1.2
        rw [← hipEq]
        unfold installmentIdsOf
        refine List.mem_map.mpr ⟨ip, ?_, rfl⟩
        rw [List.mem_filter]
        simpa [hcontra] using hip
      refine ⟨ip, ?_, hipEq⟩
      rw [deleteStep3, List.mem_filter]
      simpa [hipPid] using hip
    · intro ip hip
      rw [deleteStep3, List.mem_filter] at hip
      exact h3 ip hip.1
  have fk4 : fkConsistent (deletePurchase s pid) := by
    refine ⟨fk3.1, ?_, ?_⟩
    · intro r hr
      have hr1 : r ∈ s.budgetExpensesByPurchase ∧ ¬ r.2 = pid := by
        rw [deletePurchase, deleteStep4, deleteStep3] at hr
        rw [deleteStep2, List.mem_filter] at hr
        refine ⟨hr.1, ?_⟩
        simpa using hr.2
      rw [deletePurchase, deleteStep4, List.mem_filter]
      constructor
      · exact h2 r hr1.1
      · simpa using hr1.2
    · intro ip hip
      have hip1 : ip ∈ s.installments ∧ ¬ ip.2 = pid := by
        rw [deletePurchase, deleteStep4] at hip
        rw [deleteStep3, List.mem_filter] at hip
        refine ⟨hip.1, ?_⟩
        simpa using hip.2
      rw [deletePurchase, deleteStep4, List.mem_filter]
      constructor
      · exact h3 ip hip1.1
      · simpa using hip1.2
  refine ⟨fk1, fk2, fk3, fk4, ?_, ?_, ?_, ?_, rfl⟩
  · intro hmem
    rw [deletePurchase, deleteStep4, List.mem_filter] at hmem
    simpa using hmem.2
  · rw [List.filter_eq_nil_iff]
    intro ip hip
    rw [deletePurchase, deleteStep4] at hip
    rw [deleteStep3, List.mem_filter] at hip
    simpa using hip.2
  · rw [List.filter_eq_nil_iff]
    intro r hr
    rw [deletePurchase, deleteStep4, deleteStep3] at hr
    rw [deleteStep2, List.mem_filter] at hr
    simpa using hr.2
  · rw [List.filter_eq_nil_iff]
    intro r hr
    rw [deletePurchase, deleteStep4, deleteStep3, deleteStep2] at hr
    rw [deleteStep1, List.mem_filter] at hr
    simpa using hr.2

/-- C5 witness: a concrete store with two purchases, three installments,
budget-expense rows referencing both an installment and the purchases,
and two statements; deleting purchase 1 instantiates the theorem. -/
theorem c5_witness :
    fkConsistent ⟨[1, 2], [(10, 1), (11, 1), (12, 2)], [(100, 10), (101, 12)],
      [(200, 1), (201, 2)], [5, 6]⟩ ∧
    (fkConsistent (deleteStep1 ⟨[1, 2], [(10, 1), (11, 1), (12, 2)],
        [(100, 10), (101, 12)], [(200, 1), (201, 2)], [5, 6]⟩ 1) ∧
     fkConsistent (deleteStep2 (deleteStep1 ⟨[1, 2], [(10, 1), (11, 1), (12, 2)],
        [(100, 10), (101, 12)], [(200, 1), (201, 2)], [5, 6]⟩ 1) 1) ∧
     fkConsistent (deleteStep3 (deleteStep2 (deleteStep1 ⟨[1, 2],
        [(10, 1), (11, 1), (12, 2)], [(100, 10), (101, 12)],
        [(200, 1), (201, 2)], [5, 6]⟩ 1) 1) 1) ∧
     fkConsistent (deletePurchase ⟨[1, 2], [(10, 1), (11, 1), (12, 2)],
        [(100, 10), (101, 12)], [(200, 1), (201, 2)], [5, 6]⟩ 1) ∧
     ¬ 1 ∈ (deletePurchase ⟨[1, 2], [(10, 1), (11, 1), (12, 2)],
        [(100, 10), (101, 12)], [(200, 1), (201, 2)], [5, 6]⟩ 1).purchases ∧
     (deletePurchase ⟨[1, 2], [(10, 1), (11, 1), (12, 2)], [(100, 10), (101, 12)],
        [(200, 1), (201, 2)], [5, 6]⟩ 1).installments.filter (fun ip => ip.2 = 1) = [] ∧
     (deletePurchase ⟨[1, 2], [(10, 1), (11, 1), (12, 2)], [(100, 10), (101, 12)],
        [(200, 1), (201, 2)], [5, 6]⟩ 1).budgetExpensesByPurchase.filter
        (fun r => r.2 = 1) = [] ∧
     (deletePurchase ⟨[1, 2], [(10, 1), (11, 1), (12, 2)], [(100, 10), (101, 12)],
        [(200, 1), (201, 2)], [5, 6]⟩ 1).budgetExpensesByInstallment.filter
        (fun r => r.2 ∈ installmentIdsOf ⟨[1, 2], [(10, 1), (11, 1), (12, 2)],
          [(100, 10), (101, 12)], [(200, 1), (201, 2)], [5, 6]⟩ 1) = [] ∧
     (deletePurchase ⟨[1, 2], [(10, 1), (11, 1), (12, 2)], [(100, 10), (101, 12)],
        [(200, 1), (201, 2)], [5, 6]⟩ 1).statements = [5, 6]) :=
  ⟨by decide,
   c5_cascade_delete ⟨[1, 2], [(10, 1), (11, 1), (12, 2)], [(100, 10), (101, 12)],
     [(200, 1), (201, 2)], [5, 6]⟩ 1 (by decide)⟩

/-- C6 counterexample: the quick-purchase modal rejects a negative total
of minus 5 even though it is nonzero, so purchase creation does not fail
exactly when the total is zero and negative totals are not accepted on
that path. -/
theorem c6_counterexample :
    quickPurchaseSubmit true (some 3) (-5) = none ∧ ¬ ((-5 : ℚ) = 0) := by
  constructor
  · unfold quickPurchaseSubmit
    norm_num
  · norm_num

/-- C6 amended: on the purchases page, creation is rejected exactly when
the total amount is zero, on either kind of payment method, so negative
totals pass there; the quick-purchase modal instead rejects every total
that is not strictly positive; patching an installment amount to zero is
rejected; every rejection issues no request. -/
theorem c6_zero_amount_rejection (a b : ℚ) (n : Int) (pm : Nat) (e o : RawId)
    (hn : 1 ≤ n) :
    (purchasesPageSubmit true true true true n (some a) = none ↔ a = 0) ∧
    (purchasesPageSubmit true true true false n (some a) = none ↔ a = 0) ∧
    (quickPurchaseSubmit true (some pm) a = none ↔ a ≤ 0) ∧
    handleSave (some 0) e b o = SaveAction.reject ∧
    requestCount (handleSave (some 0) e b o) = 0 := by
  have hlt : ¬ n < 1 := by omega
  refine ⟨?_, ?_, ?_, ?_, ?_⟩
  · unfold purchasesPageSubmit
    by_cases ha : a = 0 <;> simp [ha, hlt]
  · unfold purchasesPageSubmit
    by_cases ha : a = 0 <;> simp [ha, hlt]
  · unfold quickPurchaseSubmit
    by_cases ha : a ≤ 0 <;> simp [ha]
  · unfold handleSave
    simp
  · unfold handleSave
    simp [requestCount]

/-- C6 witness: the amended theorem at a negative amount of minus 5 with
3 installments, showing the purchases page accepts it while the quick
modal rejects it, and a zero installment patch rejected with no
request. -/
theorem c6_witness :
    (1 : Int) ≤ 3 ∧
    ((purchasesPageSubmit true true true true 3 (some (-5)) = none ↔ (-5 : ℚ) = 0) ∧
     (purchasesPageSubmit true true true false 3 (some (-5)) = none ↔ (-5 : ℚ) = 0) ∧
     (quickPurchaseSubmit true (some 2) (-5) = none ↔ (-5 : ℚ) ≤ 0) ∧
     handleSave (some 0) RawId.emptyStr 7 RawId.null = SaveAction.reject ∧
     requestCount (handleSave (some 0) RawId.emptyStr 7 RawId.null) = 0) :=
  ⟨by norm_num,
   c6_zero_amount_rejection (-5) 7 3 2 RawId.emptyStr RawId.null (by norm_num)⟩

/-- C7 counterexample: with one credit card of id 2 whose payment method
id is 7, the installment editor dropdown is fetched for card 2, but the
single-payment reassignment dropdown of the edit-purchase page is fetched
with the payment method id 7 itself, which is not the id of the credit
card of the purchase. -/
theorem c7_counterexample :
    installmentEditorByCardParam [⟨2, 7⟩] 7 = some 2 ∧
    editPurchaseByCardParam (some 7) = 7 ∧
    ¬ (7 : Nat) = 2 := by
  refine ⟨?_, rfl, by decide⟩
  decide

/-- C7 amended: cross-card manual reassignment is rejected with
CrossCardReassignment exactly when the target statement belongs to a
different card; the installment editor dropdown is scoped by the id of
the credit card whose payment method matches the purchase; the
single-payment dropdown of the edit-purchase page instead passes the
payment method id of the purchase to the by-card statements endpoint,
which matches the card only when the two ids coincide. -/
theorem c7_reassignment_scoping (ic tc : Nat) (cards : List CreditCard)
    (pmId pm : Nat) (cc : CreditCard)
    (h : findCreditCardForPurchase cards pmId = some cc) :
    (validateReassignment ic tc =
      Except.error ReassignError.CrossCardReassignment ↔ ¬ tc = ic) ∧
    cc.payment_method_id = pmId ∧
    installmentEditorByCardParam cards pmId = some cc.id ∧
    editPurchaseByCardParam (some pm) = pm := by
  refine ⟨?_, ?_, ?_, rfl⟩
  · unfold validateReassignment
    by_cases he : tc = ic <;> simp [he]
  · have := List.find?_some h
    simpa using this
  · unfold installmentEditorByCardParam
    rw [h]
    rfl

/-- C7 witness: the amended theorem at the one-card store of the
counterexample, with a target statement on card 3. -/
theorem c7_witness :
    (validateReassignment 2 3 =
      Except.error ReassignError.CrossCardReassignment ↔ ¬ (3 : Nat) = 2) ∧
    CreditCard.payment_method_id ⟨2, 7⟩ = 7 ∧
    installmentEditorByCardParam [⟨2, 7⟩] 7 = some (CreditCard.id ⟨2, 7⟩) ∧
    editPurchaseByCardParam (some 7) = 7 :=
  c7_reassignment_scoping 2 3 [⟨2, 7⟩] 7 7 ⟨2, 7⟩ (by decide)

/-- C8: a save whose supplied amount equals the stored amount and whose
supplied statement assignment normalizes to the same value as the stored
one is accepted as a no-op and issues no update request, so the stored
record stays unchanged. -/
theorem c8_noop_update (a : ℚ) (e o : RawId) (ha : ¬ a = 0)
    (hs : normalizeStatementId e = normalizeStatementId o) :
    handleSave (some a) e a o = SaveAction.noop ∧
    requestCount (handleSave (some a) e a o) = 0 := by
  unfold handleSave
  simp [ha, hs, requestCount]

/-- C8 witness: saving amount 5 over stored amount 5 with an empty-string
selection over a stored null assignment is a no-op with no request. -/
theorem c8_witness :
    handleSave (some 5) RawId.emptyStr 5 RawId.null = SaveAction.noop ∧
    requestCount (handleSave (some 5) RawId.emptyStr 5 RawId.null) = 0 :=
  c8_noop_update 5 RawId.emptyStr RawId.null (by norm_num) rfl

/-- C9: purchases created with a payment method that is not a credit card
get installments_count 1 regardless of the entered count, the quick modal
always sends installments_count 1, and a created payload with more than
one installment can only come from a credit-card payment method. -/
theorem c9_installments_forced_to_one (cc : Bool) (n m : Int) (a b c : ℚ)
    (pm : Nat) (p q r : PurchasePayload)
    (h1 : purchasesPageSubmit true true true false n (some a) = some p)
    (h2 : quickPurchaseSubmit true (some pm) b = some q)
    (h3 : purchasesPageSubmit true true true cc m (some c) = some r)
    (h4 : 1 < r.installments_count) :
    p.installments_count = 1 ∧ q.installments_count = 1 ∧ cc = true := by
  refine ⟨?_, ?_, ?_⟩
  · unfold purchasesPageSubmit at h1
    simp at h1
    rw [← h1.2]
  · unfold quickPurchaseSubmit at h2
    simp at h2
    rw [← h2.2]
  · by_contra hcc
    have hccF : cc = false := by
      revert hcc
      cases cc <;> simp
    rw [hccF] at h3
    unfold purchasesPageSubmit at h3
    simp at h3
    rw [← h3.2] at h4
    exact absurd h4 (by norm_num)

/-- C9 witness: with installment count 3 entered, a non-credit-card
submission yields count 1, the quick modal yields count 1, and a payload
with 3 installments forces the credit-card flag. -/
theorem c9_witness :
    PurchasePayload.installments_count ⟨10, 1⟩ = 1 ∧
    PurchasePayload.installments_count ⟨4, 1⟩ = 1 ∧
    true = true :=
  c9_installments_forced_to_one true 3 3 10 4 9 1 ⟨10, 1⟩ ⟨4, 1⟩ ⟨9, 3⟩
    (by decide) (by decide) (by decide) (by norm_num)

/-- C10: each of the three findById repositories wraps a successful
payload in some, turns a 404 backend error into a null result, and
re-throws every other error unchanged. -/
theorem c10_not_found_becomes_null (v s : Nat) (hs : ¬ s = 404) :
    purchaseFindById (HttpResult.ok v) = HttpResult.ok (some v) ∧
    purchaseFindById (HttpResult.err 404 : HttpResult Nat) = HttpResult.ok none ∧
    purchaseFindById (HttpResult.err s : HttpResult Nat) = HttpResult.err s ∧
    userFindById (HttpResult.ok v) = HttpResult.ok (some v) ∧
    userFindById (HttpResult.err 404 : HttpResult Nat) = HttpResult.ok none ∧
    userFindById (HttpResult.err s : HttpResult Nat) = HttpResult.err s ∧
    statementFindById (HttpResult.ok v) = HttpResult.ok (some v) ∧
    statementFindById (HttpResult.err 404 : HttpResult Nat) = HttpResult.ok none ∧
    statementFindById (HttpResult.err s : HttpResult Nat) = HttpResult.err s := by
  unfold purchaseFindById userFindById statementFindById
  simp [hs]

/-- C10 witness: payload 7 is wrapped, 404 becomes null, and 500 is
re-thrown, for all three repositories. -/
theorem c10_witness :
    purchaseFindById (HttpResult.ok 7) = HttpResult.ok (some 7) ∧
    purchaseFindById (HttpResult.err 404 : HttpResult Nat) = HttpResult.ok none ∧
    purchaseFindById (HttpResult.err 500 : HttpResult Nat) = HttpResult.err 500 ∧
    userFindById (HttpResult.ok 7) = HttpResult.ok (some 7) ∧
    userFindById (HttpResult.err 404 : HttpResult Nat) = HttpResult.ok none ∧
    userFindById (HttpResult.err 500 : HttpResult Nat) = HttpResult.err 500 ∧
    statementFindById (HttpResult.ok 7) = HttpResult.ok (some 7) ∧
    statementFindById (HttpResult.err 404 : HttpResult Nat) = HttpResult.ok none ∧
    statementFindById (HttpResult.err 500 : HttpResult Nat) = HttpResult.err 500 :=
  c10_not_found_becomes_null 7 500 (by decide)

end CashData
